import Mathlib

/-!
Verification of the Arboretum arbitrage-dashboard core against its code.

The development shallowly embeds the TypeScript source:
pure computations become Lean functions over ℚ (JS numbers are modelled as
exact rationals, with JS `Math.round` modelled explicitly), fallible
network effects become explicit `FetchOutcome` environment values, and the
React state updates become pure state-transition functions.
-/

/-- JS `Math.round`: rounds to the nearest integer, halves toward positive
infinity. -/
def jsRound (q : ℚ) : ℤ := ⌊q + 1/2⌋

/-- `Math.round(x * 100) / 100`, the round-to-cents idiom used by the
dashboard. -/
def roundCents (q : ℚ) : ℚ := (jsRound (q * 100) : ℚ) / 100

/-! ## Data model (dashboard, src/unnamed/part_005)

String-union fields of the TypeScript interfaces (`source`, `side`,
`status`) are kept as `String`, exactly as in the source. -/

structure ArbitrageTrade where
  id : String
  source : String
  price : ℚ
  side : String
  shares : ℚ

structure ArbitrageInfo where
  polymarket_url : String
  name : String
  kalshi_url : String
  image_url : Option String
  description : String
  polymarket_yes_market_name : Option String
  polymarket_no_market_name : Option String
  kalshi_yes_market_name : Option String
  kalshi_no_market_name : Option String

structure ArbitrageOpportunity where
  id : String
  profit : ℚ
  trade_a : ArbitrageTrade
  trade_b : ArbitrageTrade
  total_cost : ℚ
  shares : ℚ
  info : ArbitrageInfo

structure ManualTradeRecord where
  tradeId : String
  opportunityId : String
  marketTitle : String
  timestamp : String
  status : String
  scale : ℚ
  capital : ℚ
  expectedProfit : ℚ
  yesVenue : String
  yesPrice : ℚ
  yesShares : ℤ
  noVenue : String
  noPrice : ℚ
  noShares : ℤ

/-- The demo opportunity embedded in the dashboard (part_005, lines 855 to
888). All numeric literals are transcribed exactly. -/
def sampleOpportunity : ArbitrageOpportunity :=
  { id := "demo_rays_mariners_2025"
    profit := 94.7874
    trade_a :=
      { id := "81702151472902979371724610344050613085560013955755917249373146284911269602672"
        source := "polymarket"
        price := 0.4
        side := "yes"
        shares := 4739.37 }
    trade_b :=
      { id := "KXMLBGAME-25AUG09TBSEA-SEA"
        source := "kalshi"
        price := 0.58
        side := "no"
        shares := 4739.37 }
    total_cost := 4644.5826
    shares := 4739.37
    info :=
      { polymarket_url := "https://polymarket.com/event/mlb-tb-sea-2025-08-10"
        name := "Rays vs. Mariners"
        kalshi_url := "https://kalshi.com/markets/KXMLBGAME/professional-baseball-game#kxmlbgame-25aug09tbsea"
        image_url := some ("https://polymarket-upload.s3.us-east-2.amazonaws.com/Repetitive-markets/MLB.jpg")
        description := "In the upcoming MLB game, scheduled for August 10 at 4:10PM ET"
        polymarket_yes_market_name := some ("Rays")
        polymarket_no_market_name := some ("Mariners")
        kalshi_yes_market_name := some ("Tampa Bay")
        kalshi_no_market_name := some ("Seattle") } }

/-- C1: for the end-to-end scenario realized by the dashboard demo data, the
quotes are venueA = yes at 0.40 and venueB = no at 0.58, both with size
4739.37 (not 4739); totalCost = 0.40*4739.37 + 0.58*4739.37 = 4644.5826,
estimatedProfit = 4739.37 - 4644.5826 = 94.7874, strictly positive, and the
embedded sample opportunity carries exactly these values. -/
theorem claimC1_amended :
    sampleOpportunity.trade_a.side = "yes" ∧
    sampleOpportunity.trade_a.price = 0.40 ∧
    sampleOpportunity.trade_b.side = "no" ∧
    sampleOpportunity.trade_b.price = 0.58 ∧
    sampleOpportunity.trade_a.shares = 4739.37 ∧
    sampleOpportunity.trade_b.shares = 4739.37 ∧
    sampleOpportunity.total_cost = 0.40 * 4739.37 + 0.58 * 4739.37 ∧
    sampleOpportunity.profit = 4739.37 - (0.40 * 4739.37 + 0.58 * 4739.37) ∧
    0 < sampleOpportunity.profit := by
  refine ⟨rfl, by norm_num [sampleOpportunity], rfl, by norm_num [sampleOpportunity],
    by norm_num [sampleOpportunity], by norm_num [sampleOpportunity],
    by norm_num [sampleOpportunity], by norm_num [sampleOpportunity],
    by norm_num [sampleOpportunity]⟩

/-- C1 counterexample: the sample opportunity embedded in the dashboard does
NOT realize size 4739, totalCost 4644.22 and estimatedProfit 94.78 as the
claim states; its actual values are 4739.37, 4644.5826 and 94.7874. -/
theorem claimC1_counterexample :
    sampleOpportunity.shares ≠ 4739 ∧
    sampleOpportunity.total_cost ≠ 4644.22 ∧
    sampleOpportunity.profit ≠ 94.78 := by
  refine ⟨by norm_num [sampleOpportunity], by norm_num [sampleOpportunity],
    by norm_num [sampleOpportunity]⟩

/-! ## Trade-detail helpers and saveExecutedTrade (part_005, lines 342 to 518) -/

/-- `getMarketName` (part_005): `opp.info?.name || "Unknown Market"`; a falsy
(empty) name yields the fallback. -/
def getMarketName (opp : ArbitrageOpportunity) : String :=
  if opp.info.name == "" then "Unknown Market" else opp.info.name

/-- `getProfit` (part_005): `opp.profit || 0`; on a required numeric field the
falsy fallback only maps 0 to 0, so this is the identity over ℚ. -/
def getProfit (opp : ArbitrageOpportunity) : ℚ := opp.profit

/-- `getTotalCost` (part_005): `opp.total_cost || 0`, likewise the identity
over ℚ. -/
def getTotalCost (opp : ArbitrageOpportunity) : ℚ := opp.total_cost

structure TradeDetails where
  polyPrice : ℚ
  kalshiPrice : ℚ
  polySide : String
  kalshiSide : String
  polyShares : ℚ
  kalshiShares : ℚ
  polymarketUrl : String
  kalshiUrl : String

/-- `getTradeDetails` (part_005, lines 357 to 391), main path: selects the
polymarket and kalshi legs by the `source` tag. The defensive branch for a
record missing `trade_a`/`trade_b` is unreachable in the typed model. -/
def getTradeDetails (opp : ArbitrageOpportunity) : TradeDetails :=
  let polyTrade := if opp.trade_a.source == "polymarket" then opp.trade_a else opp.trade_b
  let kalshiTrade := if opp.trade_a.source == "kalshi" then opp.trade_a else opp.trade_b
  { polyPrice := polyTrade.price
    kalshiPrice := kalshiTrade.price
    polySide := polyTrade.side
    kalshiSide := kalshiTrade.side
    polyShares := polyTrade.shares
    kalshiShares := kalshiTrade.shares
    polymarketUrl := opp.info.polymarket_url
    kalshiUrl := opp.info.kalshi_url }

/-- The amount-field handling in `saveExecutedTrade`: a field that is empty or
fails `parseFloat` (modelled as `none`) defaults to half the slider capital;
a parsed number is clamped below at 0. -/
def parsedAmount (defaultCapital : ℚ) (input : Option ℚ) : ℚ :=
  match input with
  | none => 0.5 * defaultCapital
  | some a => max 0 a

/-- `saveExecutedTrade` (part_005, lines 461 to 518), as a pure function of
the selected opportunity, the slider scale, the two amount inputs, and the
environment-supplied trade id and timestamp. Returns the `ManualTradeRecord`
that is prepended to the manual-trades list. -/
def saveExecutedTrade (opp : ArbitrageOpportunity) (tradeScale : ℚ)
    (polyAmount kalshiAmount : Option ℚ) (tradeId timestamp : String) :
    ManualTradeRecord :=
  let tradeDetails := getTradeDetails opp
  let defaultCapital := getTotalCost opp * tradeScale
  let polyAmt := parsedAmount defaultCapital polyAmount
  let kalshiAmt := parsedAmount defaultCapital kalshiAmount
  let capital := polyAmt + kalshiAmt
  let polyShares := polyAmt / tradeDetails.polyPrice
  let kalshiShares := kalshiAmt / tradeDetails.kalshiPrice
  let yesVenue := if tradeDetails.polySide == "yes" then "Polymarket" else "Kalshi"
  let yesPrice := if tradeDetails.polySide == "yes" then tradeDetails.polyPrice else tradeDetails.kalshiPrice
  let yesShares := if tradeDetails.polySide == "yes" then polyShares else kalshiShares
  let noVenue := if tradeDetails.polySide == "no" then "Polymarket" else "Kalshi"
  let noPrice := if tradeDetails.polySide == "no" then tradeDetails.polyPrice else tradeDetails.kalshiPrice
  let noShares := if tradeDetails.polySide == "no" then polyShares else kalshiShares
  let baselineCost := max 1 (getTotalCost opp)
  let profitPerDollar := getProfit opp / baselineCost
  let expectedProfit := profitPerDollar * capital
  { tradeId := tradeId
    opportunityId := opp.id
    marketTitle := getMarketName opp
    timestamp := timestamp
    status := "open"
    scale := tradeScale
    capital := roundCents capital
    expectedProfit := roundCents expectedProfit
    yesVenue := yesVenue
    yesPrice := yesPrice
    yesShares := jsRound yesShares
    noVenue := noVenue
    noPrice := noPrice
    noShares := jsRound noShares }

/-- C5 (amended): the recorded expectedProfit of a saved manual trade equals
the opportunity profit divided by max(1, totalCost), multiplied by the sum of
the two leg amounts, rounded to cents. When totalCost is at least 1 dollar
this is exactly the proportional scaling the spec describes; the denominator
is clamped below at 1. -/
theorem claimC5_amended (opp : ArbitrageOpportunity) (tradeScale : ℚ)
    (polyAmount kalshiAmount : Option ℚ) (tradeId timestamp : String) :
    (saveExecutedTrade opp tradeScale polyAmount kalshiAmount tradeId timestamp).expectedProfit
      = roundCents (getProfit opp / max 1 (getTotalCost opp) *
          (parsedAmount (getTotalCost opp * tradeScale) polyAmount +
           parsedAmount (getTotalCost opp * tradeScale) kalshiAmount)) := rfl

/-- A concrete opportunity with totalCost below one dollar, used to separate
profit/totalCost scaling from the profit/max(1, totalCost) scaling that the
code performs. -/
def smallCostOpportunity : ArbitrageOpportunity :=
  { id := "small_cost_opp"
    profit := 0.2
    trade_a :=
      { id := "a", source := "polymarket", price := 0.3, side := "yes", shares := 1 }
    trade_b :=
      { id := "b", source := "kalshi", price := 0.2, side := "no", shares := 1 }
    total_cost := 0.5
    shares := 1
    info :=
      { polymarket_url := "", name := "Small", kalshi_url := "", image_url := none
        description := "", polymarket_yes_market_name := none
        polymarket_no_market_name := none, kalshi_yes_market_name := none
        kalshi_no_market_name := none } }

/-- C5 counterexample: for an opportunity with totalCost = 0.5 and profit =
0.2, saving a trade with leg amounts 0.25 and 0.25 records expectedProfit
0.10 (the code divides by max(1, totalCost) = 1), not the 0.20 that exact
proportional scaling by profit/totalCost would give. -/
theorem claimC5_counterexample :
    (saveExecutedTrade smallCostOpportunity 1 (some 0.25) (some 0.25)
        ("manual_1") ("2025-08-10T00:00:00.000Z")).expectedProfit
      ≠ roundCents (getProfit smallCostOpportunity / getTotalCost smallCostOpportunity *
          (parsedAmount (getTotalCost smallCostOpportunity * 1) (some 0.25) +
           parsedAmount (getTotalCost smallCostOpportunity * 1) (some 0.25))) := by
  norm_num [saveExecutedTrade, smallCostOpportunity, getProfit, getTotalCost,
    getTradeDetails, getMarketName, parsedAmount, roundCents, jsRound]

/-! ## Manual-trade guard (part_005, lines 1035 to 1039 and 2143 to 2164) -/

/-- `getExistingTrade` (part_005): the first manual trade for the opportunity
that is still open. -/
def getExistingTrade (manualTrades : List ManualTradeRecord)
    (opportunityId : String) : Option ManualTradeRecord :=
  manualTrades.find? (fun t => t.opportunityId == opportunityId && t.status == "open")

/-- The `disabled` expression of the save-trade button (part_005, lines 2147
to 2159): both legs must be marked executed, any entered amount must be
positive, and no open manual trade for the same opportunity may exist. An
amount field models `parseFloat` output; `none` stands for an empty field or
a NaN parse, for which the JS comparison is false. -/
def saveTradeDisabled (polyExecuted kalshiExecuted : Bool)
    (polyAmount kalshiAmount : Option ℚ)
    (manualTrades : List ManualTradeRecord) (opportunityId : String) : Bool :=
  !polyExecuted || !kalshiExecuted ||
  (match polyAmount with
   | some a => decide (a ≤ 0)
   | none => false) ||
  (match kalshiAmount with
   | some a => decide (a ≤ 0)
   | none => false) ||
  manualTrades.any (fun t => t.opportunityId == opportunityId && t.status == "open")

/-- C2: while the manual-trades list contains a record with the same
opportunityId and status open, the save-trade action is disabled, and
`getExistingTrade` returns an open record for that opportunity, so a second
save for the same opportunity is rejected rather than creating a second open
trade. -/
theorem claimC2 (manualTrades : List ManualTradeRecord) (opportunityId : String)
    (polyExecuted kalshiExecuted : Bool) (polyAmount kalshiAmount : Option ℚ)
    (h : ∃ t ∈ manualTrades, t.opportunityId = opportunityId ∧ t.status = "open") :
    saveTradeDisabled polyExecuted kalshiExecuted polyAmount kalshiAmount
        manualTrades opportunityId = true ∧
    ∃ t, getExistingTrade manualTrades opportunityId = some t ∧
      t.opportunityId = opportunityId ∧ t.status = "open" := by
  obtain ⟨t, htmem, hid, hst⟩ := h
  have hany : manualTrades.any
      (fun t => t.opportunityId == opportunityId && t.status == "open") = true := by
    rw [List.any_eq_true]
    exact ⟨t, htmem, by simp [hid, hst]⟩
  constructor
  · simp [saveTradeDisabled, hany]
  · have hex : ∃ x ∈ manualTrades,
        (x.opportunityId == opportunityId && x.status == "open") = true :=
      ⟨t, htmem, by simp [hid, hst]⟩
    have hsome : (manualTrades.find?
        (fun t => t.opportunityId == opportunityId && t.status == "open")).isSome := by
      rw [List.find?_isSome]
      exact hex
    obtain ⟨u, hu⟩ := Option.isSome_iff_exists.mp hsome
    have hp := List.find?_some hu
    rw [Bool.and_eq_true, beq_iff_eq, beq_iff_eq] at hp
    exact ⟨u, hu, hp.1, hp.2⟩

/-- A concrete open manual trade used to instantiate the C2 guard. -/
def openTradeRecord : ManualTradeRecord :=
  { tradeId := "manual_1"
    opportunityId := "oppA"
    marketTitle := "Rays vs. Mariners"
    timestamp := "2025-08-10T00:00:00.000Z"
    status := "open"
    scale := 1
    capital := 10
    expectedProfit := 1
    yesVenue := "Polymarket"
    yesPrice := 0.4
    yesShares := 5
    noVenue := "Kalshi"
    noPrice := 0.58
    noShares := 5 }

/-- C2 witness: with one open trade for oppA in the list, the save button is
disabled and `getExistingTrade` finds an open record. -/
theorem claimC2_witness :
    saveTradeDisabled true true none none [openTradeRecord] ("oppA") = true ∧
    ∃ t, getExistingTrade [openTradeRecord] ("oppA") = some t ∧
      t.opportunityId = "oppA" ∧ t.status = "open" :=
  claimC2 [openTradeRecord] ("oppA") true true none none
    ⟨openTradeRecord, List.mem_singleton.mpr rfl, rfl, rfl⟩

/-! ## Wallet module (src/unnamed/part_002)

Network effects are supplied through an environment. A `FetchOutcome`
records how one `fetch` call went: `ok` carries the parsed JSON of a
successful response, `notOk` is a response with a non-2xx status, and
`thrown` is a network or parse failure carrying the message the catch
handler would read from the thrown value. -/

inductive FetchOutcome (α : Type) where
  | ok (value : α)
  | notOk
  | thrown (message : String)

structure UnlockStatus where
  unlocked : Bool
  unlock_timestamp : Option String

/-- `checkUnlockStatus` (part_002, lines 150 to 166): returns the parsed body
on a 2xx response and falls back to locked on any non-OK response or thrown
error, never throwing itself. -/
def checkUnlockStatus (opportunityId walletAddress : String)
    (outcome : FetchOutcome UnlockStatus) : UnlockStatus :=
  match outcome with
  | FetchOutcome.ok v => v
  | FetchOutcome.notOk => { unlocked := false, unlock_timestamp := none }
  | FetchOutcome.thrown _ => { unlocked := false, unlock_timestamp := none }

/-- Result shape of `WalletService.createX402Payment` (part_002, lines 84 to
113): the method catches its own errors and always returns a value of this
shape. -/
structure PaymentResult where
  success : Bool
  hash : Option String
  error : Option String

/-- The `data` payload of an `executeTradeWithPayment` result: either the
mock already-unlocked payload built inline (its `net_profit` is a random
display value from the environment), or the backend response body. -/
inductive ExecData where
  | unlockedInfo (message : String) (net_profit : ℚ) (unlock_timestamp : Option String)
  | backendPayload (body : String)

structure ExecResult where
  success : Bool
  data : Option ExecData
  error : Option String
  alreadyUnlocked : Option Bool

/-- Effects observable outside `executeTradeWithPayment`: whether an X402
payment transfer was attempted and whether the backend trade-execution
request was issued. -/
structure ExecEffects where
  paymentCreated : Bool
  tradeRequested : Bool

/-- Environment for one run of `executeTradeWithPayment`: the outcome of the
unlock-status check, of the service-wallet fetch, the result of
`createX402Payment`, the confirmation result of `waitForTransaction` (which
catches its own errors and returns false), the `Math.random()` display
profit, and the outcome of the trade-execution request with its parsed error
detail. -/
structure TradeEnv where
  unlockOutcome : FetchOutcome UnlockStatus
  serviceWalletOutcome : FetchOutcome String
  paymentResult : PaymentResult
  confirmed : Bool
  randomProfit : ℚ
  tradeOutcome : FetchOutcome String
  tradeErrorDetail : Option String

/-- `executeTradeWithPayment` (part_002, lines 171 to 274). The whole body
runs inside try/catch, so every outcome is a returned `ExecResult`; a thrown
service-wallet error lands in the catch branch with its message. The second
component records the observable effects. -/
def executeTradeWithPayment (opportunityId : String) (userId : ℕ)
    (walletAddress : String) (env : TradeEnv) : ExecResult × ExecEffects :=
  let unlockStatus := checkUnlockStatus opportunityId walletAddress env.unlockOutcome
  if unlockStatus.unlocked then
    ({ success := true
       data := some (ExecData.unlockedInfo ("Trade details already unlocked")
         env.randomProfit unlockStatus.unlock_timestamp)
       error := none
       alreadyUnlocked := some true },
     { paymentCreated := false, tradeRequested := false })
  else
    match env.serviceWalletOutcome with
    | FetchOutcome.notOk =>
      ({ success := false, data := none
         error := some ("Failed to get service wallet address")
         alreadyUnlocked := none },
       { paymentCreated := false, tradeRequested := false })
    | FetchOutcome.thrown msg =>
      ({ success := false, data := none, error := some msg, alreadyUnlocked := none },
       { paymentCreated := false, tradeRequested := false })
    | FetchOutcome.ok _serviceWalletAddress =>
      let paymentResult := env.paymentResult
      if paymentResult.success = false then
        ({ success := false, data := none
           error := some (paymentResult.error.getD ("Payment failed"))
           alreadyUnlocked := none },
         { paymentCreated := true, tradeRequested := false })
      else if env.confirmed = false then
        ({ success := false, data := none
           error := some ("Payment transaction failed to confirm")
           alreadyUnlocked := none },
         { paymentCreated := true, tradeRequested := false })
      else
        match env.tradeOutcome with
        | FetchOutcome.ok body =>
          ({ success := true, data := some (ExecData.backendPayload body)
             error := none, alreadyUnlocked := none },
           { paymentCreated := true, tradeRequested := true })
        | FetchOutcome.notOk =>
          ({ success := false, data := none
             error := some (env.tradeErrorDetail.getD ("Trade execution failed"))
             alreadyUnlocked := none },
           { paymentCreated := true, tradeRequested := true })
        | FetchOutcome.thrown msg =>
          ({ success := false, data := none, error := some msg, alreadyUnlocked := none },
           { paymentCreated := true, tradeRequested := true })

/-- C8: `checkUnlockStatus` is total and fail-closed; any non-OK response or
thrown network/parse error yields the locked result, indistinguishable from
a not-yet-unlocked answer, without throwing. -/
theorem claimC8 (opportunityId walletAddress : String)
    (outcome : FetchOutcome UnlockStatus)
    (h : ∀ v, outcome ≠ FetchOutcome.ok v) :
    checkUnlockStatus opportunityId walletAddress outcome
      = { unlocked := false, unlock_timestamp := none } := by
  cases outcome with
  | ok v => exact absurd rfl (h v)
  | notOk => rfl
  | thrown m => rfl

/-- C8 witness: a non-OK response at a concrete opportunity and wallet
evaluates to the locked result. -/
theorem claimC8_witness :
    checkUnlockStatus ("opp1") ("0xuser") FetchOutcome.notOk
      = { unlocked := false, unlock_timestamp := none } :=
  claimC8 ("opp1") ("0xuser") FetchOutcome.notOk
    (fun _ h => FetchOutcome.noConfusion h)

/-- C3: when the payment step runs (the unlock check reported locked and the
service wallet was obtained) and either the payment fails or its transaction
fails to confirm, `executeTradeWithPayment` returns success false with an
error message, and the backend trade-execution request is never issued; the
embedding is a total function, so every failure is a returned value rather
than an exception. -/
theorem claimC3 (opportunityId : String) (userId : ℕ) (walletAddress : String)
    (env : TradeEnv) (serviceWalletAddress : String)
    (hUnlocked : (checkUnlockStatus opportunityId walletAddress env.unlockOutcome).unlocked = false)
    (hService : env.serviceWalletOutcome = FetchOutcome.ok serviceWalletAddress)
    (hFail : env.paymentResult.success = false ∨ env.confirmed = false) :
    (executeTradeWithPayment opportunityId userId walletAddress env).1.success = false ∧
    (executeTradeWithPayment opportunityId userId walletAddress env).1.error ≠ none ∧
    (executeTradeWithPayment opportunityId userId walletAddress env).2.tradeRequested = false := by
  rcases hFail with hPay | hConfirm
  · simp [executeTradeWithPayment, hUnlocked, hService, hPay]
  · rcases hPaySucc : env.paymentResult.success with _ | _
    · simp [executeTradeWithPayment, hUnlocked, hService, hPaySucc]
    · simp [executeTradeWithPayment, hUnlocked, hService, hPaySucc, hConfirm]

/-- Concrete environment in which the X402 payment fails. -/
def failedPaymentEnv : TradeEnv :=
  { unlockOutcome := FetchOutcome.ok { unlocked := false, unlock_timestamp := none }
    serviceWalletOutcome := FetchOutcome.ok ("0xservice")
    paymentResult := { success := false, hash := none, error := some ("Payment failed") }
    confirmed := false
    randomProfit := 20
    tradeOutcome := FetchOutcome.notOk
    tradeErrorDetail := none }

/-- C3 witness: with a failing payment at concrete inputs, the call reports
failure and issues no trade request. -/
theorem claimC3_witness :
    (executeTradeWithPayment ("opp1") 1 ("0xuser") failedPaymentEnv).1.success = false ∧
    (executeTradeWithPayment ("opp1") 1 ("0xuser") failedPaymentEnv).1.error ≠ none ∧
    (executeTradeWithPayment ("opp1") 1 ("0xuser") failedPaymentEnv).2.tradeRequested = false :=
  claimC3 ("opp1") 1 ("0xuser") failedPaymentEnv ("0xservice") rfl rfl (Or.inl rfl)

/-- C4: when the unlock-status check reports unlocked, the call returns
success with alreadyUnlocked set and no error, creates no new payment and
issues no trade-execution request. -/
theorem claimC4 (opportunityId : String) (userId : ℕ) (walletAddress : String)
    (env : TradeEnv)
    (h : (checkUnlockStatus opportunityId walletAddress env.unlockOutcome).unlocked = true) :
    (executeTradeWithPayment opportunityId userId walletAddress env).1.success = true ∧
    (executeTradeWithPayment opportunityId userId walletAddress env).1.alreadyUnlocked = some true ∧
    (executeTradeWithPayment opportunityId userId walletAddress env).1.error = none ∧
    (executeTradeWithPayment opportunityId userId walletAddress env).2.paymentCreated = false ∧
    (executeTradeWithPayment opportunityId userId walletAddress env).2.tradeRequested = false := by
  simp [executeTradeWithPayment, h]

/-- Concrete environment whose unlock check reports an existing unlock. -/
def alreadyUnlockedEnv : TradeEnv :=
  { unlockOutcome := FetchOutcome.ok
      { unlocked := true, unlock_timestamp := some ("2025-08-09T12:00:00.000Z") }
    serviceWalletOutcome := FetchOutcome.notOk
    paymentResult := { success := false, hash := none, error := none }
    confirmed := false
    randomProfit := 15
    tradeOutcome := FetchOutcome.notOk
    tradeErrorDetail := none }

/-- C4 witness: retrying at concrete inputs whose unlock already exists
returns the existing unlock without charging again. -/
theorem claimC4_witness :
    (executeTradeWithPayment ("opp1") 1 ("0xuser") alreadyUnlockedEnv).1.success = true ∧
    (executeTradeWithPayment ("opp1") 1 ("0xuser") alreadyUnlockedEnv).1.alreadyUnlocked = some true ∧
    (executeTradeWithPayment ("opp1") 1 ("0xuser") alreadyUnlockedEnv).1.error = none ∧
    (executeTradeWithPayment ("opp1") 1 ("0xuser") alreadyUnlockedEnv).2.paymentCreated = false ∧
    (executeTradeWithPayment ("opp1") 1 ("0xuser") alreadyUnlockedEnv).2.tradeRequested = false :=
  claimC4 ("opp1") 1 ("0xuser") alreadyUnlockedEnv rfl

/-! ## WebSocket client (src/frontend/lib/websocket.ts) -/

/-- `ArboretumWebSocket.maxReconnectAttempts` (websocket.ts, line 73). -/
def maxReconnectAttempts : ℕ := 5

/-- `ArboretumWebSocket.reconnectDelay` in milliseconds (websocket.ts,
line 74). -/
def reconnectDelay : ℕ := 1000

/-- The part of the client state that drives reconnection. -/
structure WSState where
  reconnectAttempts : ℕ
deriving DecidableEq

/-- `scheduleReconnect` (websocket.ts, lines 231 to 240): increments the
attempt counter and computes the exponential-backoff delay for the timer. -/
def scheduleReconnect (s : WSState) : WSState × ℕ :=
  let s2 : WSState := { reconnectAttempts := s.reconnectAttempts + 1 }
  (s2, reconnectDelay * 2 ^ (s2.reconnectAttempts - 1))

/-- The `onclose` handler (websocket.ts, lines 124 to 133): schedules a
reconnect only when the close was not the clean code 1000 and the attempt
counter is still below the maximum. Returns the new state and the scheduled
delay, if any. -/
def handleClose (s : WSState) (code : ℕ) : WSState × Option ℕ :=
  if code ≠ 1000 ∧ s.reconnectAttempts < maxReconnectAttempts then
    let r := scheduleReconnect s
    (r.1, some r.2)
  else
    (s, none)

/-- `disconnect` (websocket.ts, lines 147 to 153): closes with code 1000 and
pins the attempt counter to the maximum so no reconnection can follow. -/
def disconnect (s : WSState) : WSState :=
  { reconnectAttempts := maxReconnectAttempts }

/-- C6: reconnection is bounded. A clean close with code 1000 schedules
nothing; after an explicit disconnect no close event schedules anything;
once the attempt counter has reached maxReconnectAttempts = 5 nothing is
scheduled; and the n-th scheduled attempt carries delay 1000 * 2 ^ (n - 1),
that is, reconnectDelay * 2 ^ (previous attempt count). -/
theorem claimC6 :
    maxReconnectAttempts = 5 ∧ reconnectDelay = 1000 ∧
    (∀ s, handleClose s 1000 = (s, none)) ∧
    (∀ s code, (handleClose (disconnect s) code).2 = none) ∧
    (∀ s code, maxReconnectAttempts ≤ s.reconnectAttempts →
      (handleClose s code).2 = none) ∧
    (∀ s code s2 d, handleClose s code = (s2, some d) →
      s2.reconnectAttempts = s.reconnectAttempts + 1 ∧
      d = reconnectDelay * 2 ^ s.reconnectAttempts) := by
  refine ⟨rfl, rfl, ?_, ?_, ?_, ?_⟩
  · intro s
    simp [handleClose]
  · intro s code
    simp [handleClose, disconnect]
  · intro s code h
    simp [handleClose, Nat.not_lt.mpr h]
  · intro s code s2 d h
    simp only [handleClose, scheduleReconnect] at h
    split at h
    · rw [Prod.mk.injEq, Option.some.injEq] at h
      obtain ⟨h1, h2⟩ := h
      subst h1
      subst h2
      exact ⟨rfl, by simp⟩
    · rw [Prod.mk.injEq] at h
      exact absurd h.2 (by simp)

/-- C6 witness: concrete instances of each reconnection bound. -/
theorem claimC6_witness :
    handleClose { reconnectAttempts := 0 } 1000 = ({ reconnectAttempts := 0 }, none) ∧
    (handleClose (disconnect { reconnectAttempts := 2 }) 1006).2 = none ∧
    (handleClose { reconnectAttempts := 5 } 1006).2 = none ∧
    ({ reconnectAttempts := 2 } : WSState).reconnectAttempts
        = ({ reconnectAttempts := 1 } : WSState).reconnectAttempts + 1 ∧
      2000 = reconnectDelay * 2 ^ ({ reconnectAttempts := 1 } : WSState).reconnectAttempts :=
  ⟨claimC6.2.2.1 { reconnectAttempts := 0 },
   claimC6.2.2.2.1 { reconnectAttempts := 2 } 1006,
   claimC6.2.2.2.2.1 { reconnectAttempts := 5 } 1006 (by decide),
   claimC6.2.2.2.2.2 { reconnectAttempts := 1 } 1006 { reconnectAttempts := 2 } 2000 (by decide)⟩

/-- One observable step of `handleMessage`: notifying a handler list or
sending a message on the socket. Console logging is kept as explicit
actions so every switch branch of the source is represented. -/
inductive ClientAction where
  | notifyMessageHandlers
  | notifyOpportunityHandlers
  | notifyTradeHandlers
  | notifyProfitHandlers
  | sendToSocket (msgType : String)
  | logStatus
  | logError
  | logUnknown
deriving DecidableEq

/-- `handleMessage` (websocket.ts, lines 169 to 229): all general message
handlers are notified first, then the switch on the type field dispatches;
the ping branch answers with a pong via `send`. -/
def handleMessage (msgType : String) : List ClientAction :=
  ClientAction.notifyMessageHandlers ::
  (if msgType == "arbitrage_opportunity" then [ClientAction.notifyOpportunityHandlers]
   else if msgType == "trade_execution" then [ClientAction.notifyTradeHandlers]
   else if msgType == "profit_distribution" then [ClientAction.notifyProfitHandlers]
   else if msgType == "ping" then [ClientAction.sendToSocket ("pong")]
   else if msgType == "connected" || msgType == "subscription_confirmed"
        || msgType == "eligibility_status" then [ClientAction.logStatus]
   else if msgType == "error" then [ClientAction.logError]
   else [ClientAction.logUnknown])

/-- `send` (websocket.ts, lines 155 to 161): delivers the message only when
the socket exists and is open; otherwise it warns and drops it. -/
def send (connectionOpen : Bool) (msg : String) : Option String :=
  if connectionOpen then some msg else none

/-- C7: a received message of type ping makes `handleMessage` emit a pong
send action, and on an open connection `send` delivers that pong on the same
connection. -/
theorem claimC7 :
    handleMessage ("ping")
      = [ClientAction.notifyMessageHandlers, ClientAction.sendToSocket ("pong")] ∧
    send true ("pong") = some ("pong") := by
  constructor
  · rfl
  · rfl

/-! ## First-seen map and discovery age (part_005, lines 805 to 852 and 986
to 999) -/

/-- JS falsiness of a map entry: `!next[id]` is true when the key is absent
or holds the empty string. -/
def jsFalsyStr (v : Option String) : Bool :=
  match v with
  | none => true
  | some s => s == ""

/-- The `setFirstSeen` updater inside `fetchOpportunities`: walk the fetched
list and assign the current ISO time to every id whose entry is still falsy,
leaving the rest untouched. The JS object is modelled as a map from id to
optional timestamp. -/
def updateFirstSeen (prev : String → Option String) (ids : List String)
    (nowIso : String) : String → Option String :=
  match ids with
  | [] => prev
  | oid :: rest =>
    let next := if jsFalsyStr (prev oid)
      then (fun k => if k == oid then some nowIso else prev k)
      else prev
    updateFirstSeen next rest nowIso

/-- The firstSeen update performed by one run of `fetchOpportunities`
(part_005, lines 805 to 852): on a 2xx response the fetched opportunity ids
are recorded; on a non-OK response or a thrown error the demo fallback
records the sample opportunity id. -/
def fetchOpportunitiesFirstSeen (outcome : FetchOutcome (List ArbitrageOpportunity))
    (prev : String → Option String) (nowIso : String) : String → Option String :=
  match outcome with
  | FetchOutcome.ok data => updateFirstSeen prev (data.map (fun o => o.id)) nowIso
  | FetchOutcome.notOk => updateFirstSeen prev [sampleOpportunity.id] nowIso
  | FetchOutcome.thrown _ => updateFirstSeen prev [sampleOpportunity.id] nowIso

/-- The elapsed-seconds computation of `getDiscoveredAgo`: the difference in
milliseconds is floored into seconds and clamped below at zero. -/
def discoveredDiffSec (thenMs nowMs : ℤ) : ℤ :=
  max 0 ((nowMs - thenMs).fdiv 1000)

/-- `getDiscoveredAgo` (part_005, lines 986 to 999): formats the age of the
recorded first-seen time; `parseIso` stands for `new Date(iso).getTime()`. -/
def getDiscoveredAgo (firstSeen : String → Option String)
    (parseIso : String → ℤ) (oppId : String) (nowMs : ℤ) : String :=
  match firstSeen oppId with
  | none => "just now"
  | some iso =>
    let thenMs := parseIso iso
    let diffSec := discoveredDiffSec thenMs nowMs
    if diffSec < 60 then toString diffSec ++ "s ago"
    else
      let diffMin := diffSec.fdiv 60
      if diffMin < 60 then toString diffMin ++ " min ago"
      else
        let diffHr := diffMin.fdiv 60
        if diffHr < 24 then toString diffHr ++ " hr ago"
        else toString (diffHr.fdiv 24) ++ " d ago"

/-- Updating with a list of ids never changes an entry that already holds a
nonempty timestamp. -/
theorem updateFirstSeen_preserves (ids : List String) :
    ∀ (prev : String → Option String) (nowIso oppId v : String),
      prev oppId = some v → v ≠ "" →
      updateFirstSeen prev ids nowIso oppId = some v := by
  induction ids with
  | nil =>
    intro prev nowIso oppId v h _
    exact h
  | cons oid rest ih =>
    intro prev nowIso oppId v h hv
    rw [updateFirstSeen]
    apply ih _ nowIso oppId v _ hv
    by_cases hf : jsFalsyStr (prev oid) = true
    · simp only [hf, if_pos]
      by_cases heq : oppId == oid
      · exfalso
        rw [beq_iff_eq] at heq
        rw [heq] at h
        rw [h] at hf
        simp only [jsFalsyStr, beq_iff_eq] at hf
        exact hv hf
      · simp only [heq]
        simpa using h
    · simp only [Bool.not_eq_true] at hf
      simp only [hf, Bool.false_eq_true, if_neg, not_false_iff]
      exact h

/-- C9: once a nonempty first-seen timestamp is recorded for an opportunity
id, no later run of `fetchOpportunities` overwrites it, whatever the fetch
outcome; and the elapsed seconds reported by `getDiscoveredAgo` are clamped
at zero, so no recorded id ever shows a negative age. -/
theorem claimC9 :
    (∀ (outcome : FetchOutcome (List ArbitrageOpportunity))
       (prev : String → Option String) (nowIso oppId v : String),
       prev oppId = some v → v ≠ "" →
       fetchOpportunitiesFirstSeen outcome prev nowIso oppId = some v) ∧
    (∀ thenMs nowMs : ℤ, 0 ≤ discoveredDiffSec thenMs nowMs) := by
  constructor
  · intro outcome prev nowIso oppId v h hv
    cases outcome with
    | ok data => exact updateFirstSeen_preserves _ prev nowIso oppId v h hv
    | notOk => exact updateFirstSeen_preserves _ prev nowIso oppId v h hv
    | thrown m => exact updateFirstSeen_preserves _ prev nowIso oppId v h hv
  · intro thenMs nowMs
    exact le_max_left 0 _

/-- A concrete firstSeen map holding one recorded timestamp. -/
def firstSeenSampleMap : String → Option String :=
  fun k => if k == "oppA" then some ("2025-08-10T00:00:00.000Z") else none

/-- C9 witness: a recorded timestamp survives a fallback fetch that records
the sample id, and the elapsed seconds are nonnegative even when the clock
runs backwards. -/
theorem claimC9_witness :
    fetchOpportunitiesFirstSeen FetchOutcome.notOk firstSeenSampleMap
        ("2025-08-11T00:00:00.000Z") ("oppA") = some ("2025-08-10T00:00:00.000Z") ∧
    0 ≤ discoveredDiffSec 5000 3000 :=
  ⟨claimC9.1 FetchOutcome.notOk firstSeenSampleMap ("2025-08-11T00:00:00.000Z")
      ("oppA") ("2025-08-10T00:00:00.000Z") (by decide) (by decide),
   claimC9.2 5000 3000⟩

/-! ## useWebSocket event histories (websocket.ts, lines 306 to 342) -/

structure OpportunityMessage where
  type : String
  timestamp : String
  status : String
  action_required : String
  message : String

structure TradeExecutionMessage where
  type : String
  timestamp : String
  status : String
  opportunity_id : String
  message : String

structure ProfitDistributionMessage where
  type : String
  timestamp : String
  status : String
  amount : ℚ
  message : String

/-- The opportunity handler of `useWebSocket`:
`[message, ...prev.slice(0, 9)]`, keeping the last 10. -/
def pushOpportunityEvent (msg : OpportunityMessage)
    (prev : List OpportunityMessage) : List OpportunityMessage :=
  msg :: prev.take 9

/-- The trade handler of `useWebSocket`: `[message, ...prev.slice(0, 19)]`,
keeping the last 20. -/
def pushTradeEvent (msg : TradeExecutionMessage)
    (prev : List TradeExecutionMessage) : List TradeExecutionMessage :=
  msg :: prev.take 19

/-- The profit handler of `useWebSocket`: `[message, ...prev.slice(0, 19)]`,
keeping the last 20. -/
def pushProfitEvent (msg : ProfitDistributionMessage)
    (prev : List ProfitDistributionMessage) : List ProfitDistributionMessage :=
  msg :: prev.take 19

/-- C10: after every received event the opportunity history holds at most 10
entries and the trade and profit histories hold at most 20 entries each,
with the newest event at the head of the list. -/
theorem claimC10 :
    (∀ (msg : OpportunityMessage) prev,
      (pushOpportunityEvent msg prev).length ≤ 10 ∧
      (pushOpportunityEvent msg prev).head? = some msg) ∧
    (∀ (msg : TradeExecutionMessage) prev,
      (pushTradeEvent msg prev).length ≤ 20 ∧
      (pushTradeEvent msg prev).head? = some msg) ∧
    (∀ (msg : ProfitDistributionMessage) prev,
      (pushProfitEvent msg prev).length ≤ 20 ∧
      (pushProfitEvent msg prev).head? = some msg) := by
  refine ⟨fun msg prev => ⟨?_, rfl⟩, fun msg prev => ⟨?_, rfl⟩, fun msg prev => ⟨?_, rfl⟩⟩
  · have := List.length_take_le 9 prev
    simp only [pushOpportunityEvent, List.length_cons]
    omega
  · have := List.length_take_le 19 prev
    simp only [pushTradeEvent, List.length_cons]
    omega
  · have := List.length_take_le 19 prev
    simp only [pushProfitEvent, List.length_cons]
    omega
